import Mathlib

/-! Verification of the text-scoring engine of `src/app.py`
(`MentalHealthAnalyzer`): keyword matching, severity scoring and banding,
concerning-phrase extraction, overall assessment and the `analyze_text`
entry point.

Modelling conventions: Python strings are `List Char`; Python floats are `ℚ`
(every numeric constant in the engine is an exact decimal); `str.lower()` is
character-wise `Char.toLower` (exact on the ASCII keyword lists); the Python
substring test `kw in text` is `List.IsInfix`.  The external collaborators
are parameters: the primary NLTK tokenizer result is an
`Option (sentences × words)` (`none` means it raised, triggering the
in-source regex fallback), the NLTK sentence tokenizer used by
`find_concerning_phrases` is an arbitrary function, and the VADER sentiment
result is an `Option SentimentScores` (`none` means it raised, triggering
the in-source neutral default). -/

namespace MentalHealth

/-- Python `text.lower()`, character-wise. -/
def lower (t : List Char) : List Char := t.map Char.toLower

/-- The whitespace characters stripped by Python `str.strip()`:
space, tab, newline, carriage return, vertical tab, form feed. -/
def pySpace (c : Char) : Bool :=
  c.toNat = 32 || c.toNat = 9 || c.toNat = 10 || c.toNat = 13 ||
    c.toNat = 11 || c.toNat = 12

/-- Python `s.strip()`. -/
def strip (t : List Char) : List Char :=
  ((t.dropWhile pySpace).reverse.dropWhile pySpace).reverse

/-- The apostrophe character (several keywords contain it). -/
def apos : Char := Char.ofNat 39

/-- `self.depression_keywords` from `src/app.py`. -/
def depression_keywords : List (List Char) :=
  ["depressed".toList, "sad".toList, "hopeless".toList, "worthless".toList,
   "empty".toList, "numb".toList, "lonely".toList, "isolated".toList,
   "tired".toList, "exhausted".toList, "sleep".toList, "insomnia".toList,
   "cry".toList, "crying".toList, "tears".toList, "suicide".toList,
   "kill myself".toList, "end it all".toList, "no point".toList,
   "give up".toList, "can".toList ++ [apos] ++ "t go on".toList,
   "hate myself".toList, "failure".toList, "disappointed".toList,
   "regret".toList, "guilty".toList, "shame".toList, "burden".toList]

/-- `self.anxiety_keywords` from `src/app.py` (note: the source list
really does contain the entry `worried` twice). -/
def anxiety_keywords : List (List Char) :=
  ["anxious".toList, "worried".toList, "nervous".toList, "panic".toList,
   "fear".toList, "scared".toList, "overwhelmed".toList, "stressed".toList,
   "tension".toList, "restless".toList, "uneasy".toList, "paranoid".toList,
   "worried".toList, "concern".toList, "afraid".toList, "terrified".toList,
   "heart racing".toList, "can".toList ++ [apos] ++ "t breathe".toList,
   "sweating".toList, "trembling".toList, "what if".toList,
   "catastrophe".toList, "disaster".toList, "danger".toList]

/-- `self.stress_keywords` from `src/app.py`. -/
def stress_keywords : List (List Char) :=
  ["stress".toList, "pressure".toList, "overwhelmed".toList,
   "burden".toList, "too much".toList,
   "can".toList ++ [apos] ++ "t handle".toList, "breaking point".toList,
   "exhausted".toList, "burned out".toList, "deadline".toList,
   "rushed".toList, "hurry".toList, "chaos".toList, "hectic".toList,
   "frantic".toList, "struggling".toList, "difficult".toList,
   "hard".toList, "challenging".toList, "demanding".toList]

/-- `self.positive_keywords` from `src/app.py`. -/
def positive_keywords : List (List Char) :=
  ["happy".toList, "joy".toList, "excited".toList, "grateful".toList,
   "blessed".toList, "amazing".toList, "wonderful".toList, "great".toList,
   "fantastic".toList, "love".toList, "peaceful".toList, "calm".toList,
   "relaxed".toList, "confident".toList, "proud".toList,
   "accomplished".toList, "successful".toList, "optimistic".toList,
   "hopeful".toList, "content".toList, "satisfied".toList,
   "fulfilled".toList]

/-- One keyword-list count of `analyze_text`:
`sum(1 for word in keywords if word in text.lower())`. -/
def kwCount (kws : List (List Char)) (text : List Char) : ℕ :=
  kws.countP (fun w => decide (w <:+: lower text))

/-- The per-category severity score of `analyze_text`:
`min(count / max(total_words * 0.1, 1), 1)`. -/
def severityScore (count total_words : ℕ) : ℚ :=
  min ((count : ℚ) / max ((total_words : ℚ) * 0.1) 1) 1

/-- The nested `get_severity` of `analyze_text`. -/
def get_severity (score : ℚ) : String :=
  if 0.3 ≤ score then "High"
  else if 0.15 ≤ score then "Moderate"
  else if 0.05 ≤ score then "Mild"
  else "Low"

/-- `MentalHealthAnalyzer.get_overall_assessment`. -/
def get_overall_assessment (negative_score positive_score : ℚ) : String :=
  if 0.3 ≤ negative_score then
    if 0.2 ≤ positive_score then
      "Mixed emotions with significant concerns - consider professional support"
    else
      "High concern detected - strongly recommend professional help"
  else if 0.15 ≤ negative_score then
    if 0.3 ≤ positive_score then
      "Moderate concerns with positive elements - monitor closely"
    else
      "Moderate concern - consider speaking with someone"
  else if 0.05 ≤ negative_score then
    "Mild concerns detected - practice self-care"
  else if 0.2 ≤ positive_score then
    "Positive mental state - keep up the good work!"
  else
    "Neutral state - maintain healthy habits"

/-- One entry of the `phrases` list built by `find_concerning_phrases`. -/
structure ConcerningPhrase where
  phrase : List Char
  type : String
  keyword : List Char
deriving DecidableEq

/-- The keyword list used for a given phrase `type` string. -/
def keywords_for (c : String) : List (List Char) :=
  if c = "depression" then depression_keywords
  else if c = "anxiety" then anxiety_keywords
  else if c = "stress" then stress_keywords
  else []

/-- The inner `for keyword in ...: if keyword in sentence_lower: ...; break`
loop: the first keyword of the list occurring in the lowercased sentence. -/
def firstHit (kws : List (List Char)) (sentence_lower : List Char) :
    Option (List Char) :=
  kws.find? (fun k => decide (k <:+: sentence_lower))

/-- The phrases one category contributes for one sentence in
`find_concerning_phrases` (the empty list, or one entry built from the
stripped sentence and the first matching keyword). -/
def categoryPhrases (c : String) (sentence : List Char) :
    List ConcerningPhrase :=
  match firstHit (keywords_for c) (lower sentence) with
  | some k => [⟨strip sentence, c, k⟩]
  | none => []

/-- The phrases one sentence contributes in `find_concerning_phrases`:
the three negative categories are each tested, in the order depression,
anxiety, stress. -/
def sentencePhrases (sentence : List Char) : List ConcerningPhrase :=
  categoryPhrases "depression" sentence ++ categoryPhrases "anxiety" sentence
    ++ categoryPhrases "stress" sentence

/-- `MentalHealthAnalyzer.find_concerning_phrases`, parameterized by the
sentence list the external `sent_tokenize` produced for the input text. -/
def find_concerning_phrases (sentences : List (List Char)) :
    List ConcerningPhrase :=
  sentences.flatMap sentencePhrases

/-- Sentence terminators of the fallback splitter `re.split(r'[.!?]+', ...)`. -/
def isSentTerm (c : Char) : Bool := c = '.' || c = '!' || c = '?'

/-- Word characters of the fallback word finder `re.findall(r'\b\w+\b', ...)`. -/
def isWordChar (c : Char) : Bool := c.isAlphanum || c = '_'

/-- Fallback sentence split of `safe_tokenize` (applied to lowered text):
split on runs of `.!?`, strip each piece, drop the empty ones. -/
def fb_sentences (s : List Char) : List (List Char) :=
  ((s.splitOnP isSentTerm).map strip).filter (fun x => !x.isEmpty)

/-- Fallback word tokenization of `safe_tokenize` (applied to lowered text):
the maximal runs of word characters. -/
def fb_words (s : List Char) : List (List Char) :=
  (s.splitOnP (fun c => !isWordChar c)).filter (fun x => !x.isEmpty)

/-- `MentalHealthAnalyzer.safe_tokenize`: the primary NLTK pair
`(sent_tokenize(text.lower()), word_tokenize(text.lower()))` is a parameter
applied to the lowered text; `none` (the tokenizer raised) selects the
regex fallback on the lowered text. -/
def safe_tokenize
    (prim : List Char → Option (List (List Char) × List (List Char)))
    (text : List Char) : List (List Char) × List (List Char) :=
  match prim (lower text) with
  | some r => r
  | none => (fb_sentences (lower text), fb_words (lower text))

/-- The VADER polarity scores dict. -/
structure SentimentScores where
  compound : ℚ
  neg : ℚ
  neu : ℚ
  pos : ℚ
deriving DecidableEq

/-- The neutral default used when the sentiment scorer raises:
`{'compound': 0.0, 'neg': 0.0, 'neu': 1.0, 'pos': 0.0}`. -/
def neutral_sentiment : SentimentScores := ⟨0, 0, 1, 0⟩

/-- One per-category block of the result dict of `analyze_text`. -/
structure CategoryResult where
  score : ℚ
  severity : String
  count : ℕ
deriving DecidableEq

/-- The result dict of `analyze_text` (the nondeterministic `timestamp`
field is omitted). -/
structure AnalysisRecord where
  text : List Char
  sentiment : SentimentScores
  depression : CategoryResult
  anxiety : CategoryResult
  stress : CategoryResult
  positive : CategoryResult
  highlighted_phrases : List ConcerningPhrase
  overall_assessment : String
  overall_score : ℚ
deriving DecidableEq

/-- `MentalHealthAnalyzer.analyze_text`.  `prim` is the primary tokenizer
(see `safe_tokenize`), `sentTok` the sentence tokenizer used by
`find_concerning_phrases` on the raw text, `sent` the sentiment scorer's
result (`none` means it raised). -/
def analyze_text
    (prim : List Char → Option (List (List Char) × List (List Char)))
    (sentTok : List Char → List (List Char))
    (sent : Option SentimentScores)
    (text : List Char) : Option AnalysisRecord :=
  if strip text = [] then none
  else
    let sentiment_scores := sent.getD neutral_sentiment
    let words := (safe_tokenize prim text).2
    let depression_count := kwCount depression_keywords text
    let anxiety_count := kwCount anxiety_keywords text
    let stress_count := kwCount stress_keywords text
    let positive_count := kwCount positive_keywords text
    let total_words := words.length
    let depression_score := severityScore depression_count total_words
    let anxiety_score := severityScore anxiety_count total_words
    let stress_score := severityScore stress_count total_words
    let positive_score := severityScore positive_count total_words
    let highlighted_phrases := find_concerning_phrases (sentTok text)
    let overall_score := (depression_score + anxiety_score + stress_score) / 3
    some
      { text := text
        sentiment := sentiment_scores
        depression := ⟨depression_score, get_severity depression_score,
          depression_count⟩
        anxiety := ⟨anxiety_score, get_severity anxiety_score, anxiety_count⟩
        stress := ⟨stress_score, get_severity stress_score, stress_count⟩
        positive := ⟨positive_score, get_severity positive_score,
          positive_count⟩
        highlighted_phrases := highlighted_phrases
        overall_assessment := get_overall_assessment overall_score
          positive_score
        overall_score := overall_score }

/-- The primary tokenizer that always raises (forcing the regex fallback). -/
def primNone : List Char → Option (List (List Char) × List (List Char)) :=
  fun _ => none

/-- A sentence tokenizer producing no sentences. -/
def sentTokNil : List Char → List (List Char) := fun _ => []

/-- A sentence tokenizer returning the whole text as one sentence. -/
def sentTokSelf : List Char → List (List Char) := fun t => [t]

/-- The record `analyze_text` produces for the text `"sad"` with the
fallback tokenizer, no sentences and a failed sentiment scorer. -/
def sadRecord : AnalysisRecord :=
  { text := "sad".toList
    sentiment := ⟨0, 0, 1, 0⟩
    depression := ⟨1, "High", 1⟩
    anxiety := ⟨0, "Low", 0⟩
    stress := ⟨0, "Low", 0⟩
    positive := ⟨0, "Low", 0⟩
    highlighted_phrases := []
    overall_assessment :=
      "High concern detected - strongly recommend professional help"
    overall_score := 1/3 }

/-- Like `sadRecord` but for the differently-cased input `"Sad"`. -/
def sadRecordUpper : AnalysisRecord := { sadRecord with text := "Sad".toList }

/-- Like `sadRecord` but for the input `"sAD"` analyzed with `sentTokSelf`,
so the whole text is one sentence and yields one depression phrase. -/
def sadRecordSAD : AnalysisRecord :=
  { sadRecord with
    text := "sAD".toList
    highlighted_phrases := [⟨"sAD".toList, "depression", "sad".toList⟩] }

/-- The rank used to state that severity banding is monotone. -/
def severityRank (s : String) : ℕ :=
  if s = "High" then 3 else if s = "Moderate" then 2
  else if s = "Mild" then 1 else 0

attribute [local semireducible] Rat.ofScientific Rat.mul Rat.inv Rat.add Rat.sub

/-! ## Helper lemmas -/

theorem lower_append (t s : List Char) : lower (t ++ s) = lower t ++ lower s :=
  List.map_append _ t s

theorem analyze_text_eq_some {prim sentTok sent text r} :
    analyze_text prim sentTok sent text = some r ↔
      strip text ≠ [] ∧
      r = { text := text
            sentiment := sent.getD neutral_sentiment
            depression := ⟨severityScore (kwCount depression_keywords text)
                (safe_tokenize prim text).2.length,
              get_severity (severityScore (kwCount depression_keywords text)
                (safe_tokenize prim text).2.length),
              kwCount depression_keywords text⟩
            anxiety := ⟨severityScore (kwCount anxiety_keywords text)
                (safe_tokenize prim text).2.length,
              get_severity (severityScore (kwCount anxiety_keywords text)
                (safe_tokenize prim text).2.length),
              kwCount anxiety_keywords text⟩
            stress := ⟨severityScore (kwCount stress_keywords text)
                (safe_tokenize prim text).2.length,
              get_severity (severityScore (kwCount stress_keywords text)
                (safe_tokenize prim text).2.length),
              kwCount stress_keywords text⟩
            positive := ⟨severityScore (kwCount positive_keywords text)
                (safe_tokenize prim text).2.length,
              get_severity (severityScore (kwCount positive_keywords text)
                (safe_tokenize prim text).2.length),
              kwCount positive_keywords text⟩
            highlighted_phrases := find_concerning_phrases (sentTok text)
            overall_assessment := get_overall_assessment
              ((severityScore (kwCount depression_keywords text)
                  (safe_tokenize prim text).2.length +
                severityScore (kwCount anxiety_keywords text)
                  (safe_tokenize prim text).2.length +
                severityScore (kwCount stress_keywords text)
                  (safe_tokenize prim text).2.length) / 3)
              (severityScore (kwCount positive_keywords text)
                (safe_tokenize prim text).2.length)
            overall_score := (severityScore (kwCount depression_keywords text)
                (safe_tokenize prim text).2.length +
              severityScore (kwCount anxiety_keywords text)
                (safe_tokenize prim text).2.length +
              severityScore (kwCount stress_keywords text)
                (safe_tokenize prim text).2.length) / 3 } := by
  unfold analyze_text
  split_ifs with hs
  · simp [hs]
  · simp only [Option.some.injEq, hs, ne_eq, not_false_iff, true_and]
    exact eq_comm

/-! ## C2, C10: the keyword matcher -/

/-- C2: for every input text and every keyword list, the matcher returns the
number of list entries that occur as a substring of the lowercased text; each
list entry contributes `1` exactly when it is present and `0` otherwise —
independent of how often it occurs in the text (presence/absence, not
frequency): the count is invariant between texts in which the same entries
are present. -/
theorem keyword_count_presence_absence (kws : List (List Char))
    (text t1 t2 k : List Char) (tl : List (List Char)) :
    kwCount kws text =
      (kws.filter (fun w => decide (w <:+: lower text))).length ∧
    kwCount (k :: tl) text =
      (if k <:+: lower text then 1 else 0) + kwCount tl text ∧
    ((∀ w ∈ kws, (w <:+: lower t1 ↔ w <:+: lower t2)) →
      kwCount kws t1 = kwCount kws t2) := by
  refine ⟨List.countP_eq_length_filter _ _, ?_, ?_⟩
  · simp [kwCount, List.countP_cons, Nat.add_comm]
  · intro h
    exact List.countP_congr fun w hw => by simp [h w hw]

/-- C2 witness: the keyword `sad`, repeated three times, counts once — the
same as a text containing it once. -/
theorem keyword_count_presence_absence_witness :
    kwCount depression_keywords "sad sad sad".toList =
      kwCount depression_keywords "sad".toList ∧
    kwCount depression_keywords "sad".toList = 1 :=
  ⟨(keyword_count_presence_absence depression_keywords [] "sad sad sad".toList
      "sad".toList [] []).2.2 (by decide), by decide⟩

/-- C10: appending a suffix to the text never decreases any keyword count:
for every keyword list — in particular each of the four category lists —
substring containment is preserved under extension of the text. -/
theorem keyword_count_monotone_append (t s : List Char) :
    (∀ kws, kwCount kws t ≤ kwCount kws (t ++ s)) ∧
    kwCount depression_keywords t ≤ kwCount depression_keywords (t ++ s) ∧
    kwCount anxiety_keywords t ≤ kwCount anxiety_keywords (t ++ s) ∧
    kwCount stress_keywords t ≤ kwCount stress_keywords (t ++ s) ∧
    kwCount positive_keywords t ≤ kwCount positive_keywords (t ++ s) := by
  have h : ∀ kws, kwCount kws t ≤ kwCount kws (t ++ s) := by
    intro kws
    apply List.countP_mono_left
    intro w _ hw
    simp only [decide_eq_true_eq] at hw ⊢
    rw [lower_append]
    obtain ⟨pre, suf, hps⟩ := hw
    exact ⟨pre, suf ++ lower s, by rw [← hps]; simp⟩
  exact ⟨h, h _, h _, h _, h _⟩

/-! ## C3: the severity score -/

/-- C3: the severity score is `min(count / max(total_words * 0.1, 1), 1)`
and always lies in `[0, 1]`, for every keyword count and word count
(including zero words or huge counts); in every record `analyze_text`
produces, each category's score is exactly this function of that category's
keyword count and the tokenized word count. -/
theorem severity_score_formula_bounds (c w : ℕ)
    (prim : List Char → Option (List (List Char) × List (List Char)))
    (sentTok : List Char → List (List Char)) (sent : Option SentimentScores)
    (text : List Char) (r : AnalysisRecord) :
    severityScore c w = min ((c : ℚ) / max ((w : ℚ) * 0.1) 1) 1 ∧
    0 ≤ severityScore c w ∧ severityScore c w ≤ 1 ∧
    (analyze_text prim sentTok sent text = some r →
      r.depression.score = severityScore (kwCount depression_keywords text)
        (safe_tokenize prim text).2.length ∧
      r.anxiety.score = severityScore (kwCount anxiety_keywords text)
        (safe_tokenize prim text).2.length ∧
      r.stress.score = severityScore (kwCount stress_keywords text)
        (safe_tokenize prim text).2.length ∧
      r.positive.score = severityScore (kwCount positive_keywords text)
        (safe_tokenize prim text).2.length) := by
  refine ⟨rfl, ?_, min_le_right _ _, ?_⟩
  · apply le_min _ zero_le_one
    apply div_nonneg (Nat.cast_nonneg c)
    exact le_trans zero_le_one (le_max_right _ _)
  · intro h
    obtain ⟨-, rfl⟩ := analyze_text_eq_some.mp h
    exact ⟨rfl, rfl, rfl, rfl⟩

/-- C3 witness: evaluated on the text `"sad"` (one word, one depression
hit), whose depression score saturates at `1`. -/
theorem severity_score_formula_bounds_witness :
    0 ≤ severityScore 500 0 ∧ severityScore 500 0 ≤ 1 ∧
    sadRecord.depression.score = severityScore
      (kwCount depression_keywords "sad".toList)
      (safe_tokenize primNone "sad".toList).2.length :=
  ⟨(severity_score_formula_bounds 500 0 primNone sentTokNil none
      "sad".toList sadRecord).2.1,
   (severity_score_formula_bounds 500 0 primNone sentTokNil none
      "sad".toList sadRecord).2.2.1,
   ((severity_score_formula_bounds 500 0 primNone sentTokNil none
      "sad".toList sadRecord).2.2.2 (by decide)).1⟩

/-! ## C4: severity banding -/

/-- C4: severity banding is given by fixed thresholds evaluated high-to-low,
inclusive at the lower bound of each tier — `≥ 0.30` maps to `High`,
`[0.15, 0.30)` to `Moderate`, `[0.05, 0.15)` to `Mild`, anything lower to
`Low`; every score maps to exactly one of those four bands, and the mapping
is monotone in the score. -/
theorem severity_banding (s t : ℚ) :
    ((0.3 : ℚ) ≤ s → get_severity s = "High") ∧
    ((0.15 : ℚ) ≤ s → s < 0.3 → get_severity s = "Moderate") ∧
    ((0.05 : ℚ) ≤ s → s < 0.15 → get_severity s = "Mild") ∧
    (s < 0.05 → get_severity s = "Low") ∧
    (get_severity s = "High" ∨ get_severity s = "Moderate" ∨
      get_severity s = "Mild" ∨ get_severity s = "Low") ∧
    (s ≤ t → severityRank (get_severity s) ≤ severityRank (get_severity t)) := by
  refine ⟨?_, ?_, ?_, ?_, ?_, ?_⟩
  · intro h; simp only [get_severity]; rw [if_pos h]
  · intro h1 h2; simp only [get_severity]
    rw [if_neg (by linarith), if_pos h1]
  · intro h1 h2; simp only [get_severity]
    rw [if_neg (by linarith), if_neg (by linarith), if_pos h1]
  · intro h; simp only [get_severity]
    rw [if_neg (by linarith), if_neg (by linarith), if_neg (by linarith)]
  · simp only [get_severity]
    split_ifs <;> simp
  · intro hst
    simp only [get_severity]
    split_ifs <;> first | decide | linarith

/-- C4 witness: the boundary values `0.05`, `0.15`, `0.3` map to the upper
tier, `0.04` maps to `Low`, and the ranking is monotone across `0.1 ≤ 0.2`. -/
theorem severity_banding_witness :
    get_severity 0.3 = "High" ∧ get_severity 0.15 = "Moderate" ∧
    get_severity 0.05 = "Mild" ∧ get_severity 0.04 = "Low" ∧
    severityRank (get_severity 0.1) ≤ severityRank (get_severity 0.2) :=
  ⟨(severity_banding 0.3 0.3).1 (by norm_num),
   (severity_banding 0.15 0.15).2.1 (by norm_num) (by norm_num),
   (severity_banding 0.05 0.05).2.2.1 (by norm_num) (by norm_num),
   (severity_banding 0.04 0.04).2.2.2.1 (by norm_num),
   (severity_banding 0.1 0.2).2.2.2.2.2 (by norm_num)⟩

/-! ## C5: the overall score is the unweighted mean -/

theorem overall_mean_of_some {prim sentTok sent text r}
    (h : analyze_text prim sentTok sent text = some r) :
    r.overall_score =
      (r.depression.score + r.anxiety.score + r.stress.score) / 3 := by
  obtain ⟨-, rfl⟩ := analyze_text_eq_some.mp h
  rfl

/-- C5: in every record `analyze_text` produces, `overall_score` is exactly
`(depression.score + anxiety.score + stress.score) / 3` over the scores
stored in the same record (exact rational equality), and therefore the
relation holds for every record of a history whose entries all came from
`analyze_text`. -/
theorem overall_score_unweighted_mean
    (prim : List Char → Option (List (List Char) × List (List Char)))
    (sentTok : List Char → List (List Char)) (sent : Option SentimentScores)
    (text : List Char) (r : AnalysisRecord) (hist : List AnalysisRecord) :
    (analyze_text prim sentTok sent text = some r →
      r.overall_score =
        (r.depression.score + r.anxiety.score + r.stress.score) / 3) ∧
    ((∀ a ∈ hist, ∃ p q u v, analyze_text p q u v = some a) →
      ∀ a ∈ hist, a.overall_score =
        (a.depression.score + a.anxiety.score + a.stress.score) / 3) := by
  refine ⟨overall_mean_of_some, ?_⟩
  intro hv a ha
  obtain ⟨p, q, u, v, hpq⟩ := hv a ha
  exact overall_mean_of_some hpq

/-- C5 witness: the singleton history containing the record for `"sad"`. -/
theorem overall_score_unweighted_mean_witness :
    ∀ a ∈ [sadRecord], a.overall_score =
      (a.depression.score + a.anxiety.score + a.stress.score) / 3 :=
  (overall_score_unweighted_mean primNone sentTokNil none "sad".toList
    sadRecord [sadRecord]).2
    (by
      intro a ha
      rw [List.mem_singleton] at ha
      subst ha
      exact ⟨primNone, sentTokNil, none, "sad".toList, by decide⟩)

/-! ## C6: the overall assessment decision table -/

/-- C6 counterexample: the code's assessment strings use an ASCII hyphen
(`"High concern detected - ..."`), not the em dash of the spec's table
(`"High concern detected — ..."`), so the claim's "exact strings" fail. -/
theorem assessment_string_emdash_counterexample :
    get_overall_assessment 0.3 0 =
      "High concern detected - strongly recommend professional help" ∧
    get_overall_assessment 0.3 0 ≠
      "High concern detected — strongly recommend professional help" := by
  constructor <;> decide

/-- C6 (amended): the assessment is chosen by the fixed first-match-wins
decision table over `(overall_score, positive_score)` exactly as claimed,
with the table's strings written with an ASCII hyphen-minus `-` (as in the
code) rather than the em dash `—` shown in the spec's table. -/
theorem overall_assessment_decision_table (n p : ℚ) :
    ((0.3 : ℚ) ≤ n → (0.2 : ℚ) ≤ p → get_overall_assessment n p =
      "Mixed emotions with significant concerns - consider professional support") ∧
    ((0.3 : ℚ) ≤ n → p < 0.2 → get_overall_assessment n p =
      "High concern detected - strongly recommend professional help") ∧
    ((0.15 : ℚ) ≤ n → n < 0.3 → (0.3 : ℚ) ≤ p → get_overall_assessment n p =
      "Moderate concerns with positive elements - monitor closely") ∧
    ((0.15 : ℚ) ≤ n → n < 0.3 → p < 0.3 → get_overall_assessment n p =
      "Moderate concern - consider speaking with someone") ∧
    ((0.05 : ℚ) ≤ n → n < 0.15 → get_overall_assessment n p =
      "Mild concerns detected - practice self-care") ∧
    (n < 0.05 → (0.2 : ℚ) ≤ p → get_overall_assessment n p =
      "Positive mental state - keep up the good work!") ∧
    (n < 0.05 → p < 0.2 → get_overall_assessment n p =
      "Neutral state - maintain healthy habits") := by
  refine ⟨?_, ?_, ?_, ?_, ?_, ?_, ?_⟩ <;>
    (intros; simp only [get_overall_assessment];
     split_ifs <;> first | rfl | linarith)

/-- C6 witness: one row of each tier of the decision table, at concrete
scores. -/
theorem overall_assessment_decision_table_witness :
    get_overall_assessment 0.3 0.2 =
      "Mixed emotions with significant concerns - consider professional support" ∧
    get_overall_assessment 0.3 0 =
      "High concern detected - strongly recommend professional help" ∧
    get_overall_assessment 0.2 0.1 =
      "Moderate concern - consider speaking with someone" ∧
    get_overall_assessment 0.1 1 =
      "Mild concerns detected - practice self-care" ∧
    get_overall_assessment 0 0.2 =
      "Positive mental state - keep up the good work!" ∧
    get_overall_assessment 0 0 =
      "Neutral state - maintain healthy habits" :=
  ⟨(overall_assessment_decision_table 0.3 0.2).1 (by norm_num) (by norm_num),
   (overall_assessment_decision_table 0.3 0).2.1 (by norm_num) (by norm_num),
   (overall_assessment_decision_table 0.2 0.1).2.2.2.1 (by norm_num)
     (by norm_num) (by norm_num),
   (overall_assessment_decision_table 0.1 1).2.2.2.2.1 (by norm_num)
     (by norm_num),
   (overall_assessment_decision_table 0 0.2).2.2.2.2.2.1 (by norm_num)
     (by norm_num),
   (overall_assessment_decision_table 0 0).2.2.2.2.2.2 (by norm_num)
     (by norm_num)⟩

/-! ## C7: empty-input short-circuit and the neutral sentiment default -/

theorem strip_eq_nil_iff {t : List Char} :
    strip t = [] ↔ ∀ c ∈ t, pySpace c = true := by
  unfold strip
  rw [List.reverse_eq_nil_iff, List.dropWhile_eq_nil_iff]
  constructor
  · intro h c hc
    rcases (List.mem_reverse.symm.trans (List.mem_reverse)).mp hc with _
    have htd := List.takeWhile_append_dropWhile (p := pySpace) (l := t)
    rw [← htd] at hc
    rcases List.mem_append.mp hc with h1 | h2
    · exact List.mem_takeWhile_imp h1
    · exact h _ (List.mem_reverse.mpr h2)
  · intro h c hc
    exact h c ((t.dropWhile_sublist pySpace).subset (List.mem_reverse.mp hc))

/-- C7: `analyze_text` produces no record exactly when the input is blank or
whitespace-only (`strip text = []`, i.e. every character is whitespace) —
without raising; every other input yields one complete record; and when the
sentiment scorer fails (`sent = none`), the record carries exactly the
neutral default `{compound: 0, neg: 0, neu: 1, pos: 0}`. -/
theorem analyze_empty_iff_and_sentiment_default
    (prim : List Char → Option (List (List Char) × List (List Char)))
    (sentTok : List Char → List (List Char)) (sent : Option SentimentScores)
    (text : List Char) (r : AnalysisRecord) :
    (analyze_text prim sentTok sent text = none ↔ strip text = []) ∧
    (strip text = [] ↔ ∀ c ∈ text, pySpace c = true) ∧
    (strip text ≠ [] → ∃ a, analyze_text prim sentTok sent text = some a) ∧
    (analyze_text prim sentTok none text = some r →
      r.sentiment.compound = 0 ∧ r.sentiment.neg = 0 ∧
      r.sentiment.neu = 1 ∧ r.sentiment.pos = 0) := by
  refine ⟨?_, strip_eq_nil_iff, ?_, ?_⟩
  · unfold analyze_text
    split_ifs with hs <;> simp [hs]
  · intro hs
    unfold analyze_text
    rw [if_neg hs]
    exact ⟨_, rfl⟩
  · intro h
    obtain ⟨-, rfl⟩ := analyze_text_eq_some.mp h
    exact ⟨rfl, rfl, rfl, rfl⟩

/-- C7 witness: the spaces-and-newline text is rejected, `"sad"` is
analyzed, and with a failed scorer its record carries the neutral default. -/
theorem analyze_empty_iff_and_sentiment_default_witness :
    analyze_text primNone sentTokNil none [Char.ofNat 32, Char.ofNat 10] =
      none ∧
    (∃ a, analyze_text primNone sentTokNil none "sad".toList = some a) ∧
    sadRecord.sentiment.compound = 0 ∧ sadRecord.sentiment.neg = 0 ∧
    sadRecord.sentiment.neu = 1 ∧ sadRecord.sentiment.pos = 0 :=
  ⟨(analyze_empty_iff_and_sentiment_default primNone sentTokNil none
      [Char.ofNat 32, Char.ofNat 10] sadRecord).1.mpr (by decide),
   (analyze_empty_iff_and_sentiment_default primNone sentTokNil none
      "sad".toList sadRecord).2.2.1 (by decide),
   (analyze_empty_iff_and_sentiment_default primNone sentTokNil none
      "sad".toList sadRecord).2.2.2 (by decide)⟩

/-! ## C1, C8: phrase extraction -/

theorem categoryPhrases_mem {p : ConcerningPhrase} {c : String}
    {s : List Char} (h : p ∈ categoryPhrases c s) :
    p.type = c ∧ p.phrase = strip s ∧
    firstHit (keywords_for c) (lower s) = some p.keyword ∧
    p.keyword ∈ keywords_for c ∧ p.keyword <:+: lower s := by
  unfold categoryPhrases at h
  cases hf : firstHit (keywords_for c) (lower s) with
  | none => rw [hf] at h; simp at h
  | some k =>
    rw [hf] at h
    rw [List.mem_singleton] at h
    subst h
    refine ⟨rfl, rfl, rfl, List.mem_of_find?_eq_some hf, ?_⟩
    have := List.find?_some hf
    simpa using this

theorem categoryPhrases_length (c : String) (s : List Char) :
    (categoryPhrases c s).length ≤ 1 := by
  unfold categoryPhrases
  cases firstHit (keywords_for c) (lower s) <;> simp

theorem categoryPhrases_exists (c : String) (s : List Char) :
    (∃ p ∈ categoryPhrases c s, p.type = c) ↔
      ∃ k ∈ keywords_for c, k <:+: lower s := by
  constructor
  · rintro ⟨p, hp, -⟩
    obtain ⟨-, -, -, hk, hinf⟩ := categoryPhrases_mem hp
    exact ⟨p.keyword, hk, hinf⟩
  · rintro ⟨k, hk, hinf⟩
    have hsome : (firstHit (keywords_for c) (lower s)).isSome := by
      rw [firstHit, List.find?_isSome]
      exact ⟨k, hk, by simpa using hinf⟩
    obtain ⟨k', hk'⟩ := Option.isSome_iff_exists.mp hsome
    exact ⟨⟨strip s, c, k'⟩, by simp [categoryPhrases, hk'], rfl⟩

theorem categoryPhrases_filter_ne (s : List Char) (c c' : String)
    (h : ¬ c' = c) :
    (categoryPhrases c' s).filter (fun p => p.type == c) = [] := by
  unfold categoryPhrases
  cases firstHit (keywords_for c') (lower s) <;> simp [h]

theorem sentencePhrases_mem {p : ConcerningPhrase} {s : List Char}
    (h : p ∈ sentencePhrases s) :
    p ∈ categoryPhrases "depression" s ∨ p ∈ categoryPhrases "anxiety" s ∨
      p ∈ categoryPhrases "stress" s := by
  unfold sentencePhrases at h
  rcases List.mem_append.mp h with h1 | h2
  · rcases List.mem_append.mp h1 with h3 | h4
    · exact Or.inl h3
    · exact Or.inr (Or.inl h4)
  · exact Or.inr (Or.inr h2)

theorem keywords_for_depression :
    keywords_for "depression" = depression_keywords := by decide

theorem keywords_for_anxiety : keywords_for "anxiety" = anxiety_keywords := by
  decide

theorem keywords_for_stress : keywords_for "stress" = stress_keywords := by
  decide

theorem sentencePhrases_exists_type (c : String) (s : List Char)
    (hc : c = "depression" ∨ c = "anxiety" ∨ c = "stress") :
    (∃ p ∈ sentencePhrases s, p.type = c) ↔
      ∃ k ∈ keywords_for c, k <:+: lower s := by
  rw [← categoryPhrases_exists]
  constructor
  · rintro ⟨p, hp, ht⟩
    rcases sentencePhrases_mem hp with h | h | h <;>
      obtain rfl : c = _ := ht.symm.trans (categoryPhrases_mem h).1 <;>
      exact ⟨p, h, ht⟩
  · rintro ⟨p, hp, ht⟩
    refine ⟨p, ?_, ht⟩
    unfold sentencePhrases
    rcases hc with rfl | rfl | rfl
    · exact List.mem_append.mpr (Or.inl (List.mem_append.mpr (Or.inl hp)))
    · exact List.mem_append.mpr (Or.inl (List.mem_append.mpr (Or.inr hp)))
    · exact List.mem_append.mpr (Or.inr hp)

theorem sentencePhrases_filter_le_one (c : String) (s : List Char) :
    ((sentencePhrases s).filter (fun p => p.type == c)).length ≤ 1 := by
  unfold sentencePhrases
  rw [List.filter_append, List.filter_append, List.length_append,
    List.length_append]
  have hle : ∀ c' : String,
      ((categoryPhrases c' s).filter (fun p => p.type == c)).length ≤ 1 :=
    fun c' => le_trans (List.length_filter_le _ _) (categoryPhrases_length c' s)
  by_cases h1 : c = "depression"
  · rw [categoryPhrases_filter_ne s c "anxiety" (by rw [h1]; decide),
      categoryPhrases_filter_ne s c "stress" (by rw [h1]; decide)]
    have := hle "depression"
    simp only [List.length_nil]
    omega
  · by_cases h2 : c = "anxiety"
    · rw [categoryPhrases_filter_ne s c "depression" (by rw [h2]; decide),
        categoryPhrases_filter_ne s c "stress" (by rw [h2]; decide)]
      have := hle "anxiety"
      simp only [List.length_nil]
      omega
    · by_cases h3 : c = "stress"
      · rw [categoryPhrases_filter_ne s c "depression" (by rw [h3]; decide),
          categoryPhrases_filter_ne s c "anxiety" (by rw [h3]; decide)]
        have := hle "stress"
        simp only [List.length_nil]
        omega
      · rw [categoryPhrases_filter_ne s c "depression" (fun hh => h1 hh.symm),
          categoryPhrases_filter_ne s c "anxiety" (fun hh => h2 hh.symm),
          categoryPhrases_filter_ne s c "stress" (fun hh => h3 hh.symm)]
        simp

/-- C1 counterexample: the sentence `"i feel sad and anxious"` matches both
a depression keyword and an anxiety keyword, and the extractor emits TWO
phrases for it — the code's per-category loops only `break` out of the
keyword scan, they do not stop checking the remaining categories. -/
theorem two_phrases_for_one_sentence :
    find_concerning_phrases ["i feel sad and anxious".toList] =
      [⟨"i feel sad and anxious".toList, "depression", "sad".toList⟩,
       ⟨"i feel sad and anxious".toList, "anxiety", "anxious".toList⟩] ∧
    ¬ (find_concerning_phrases ["i feel sad and anxious".toList]).length ≤ 1 := by
  constructor <;> decide

/-- C1 (amended): for every sentence, each of the three negative categories
is tested independently, in the fixed order depression, anxiety, stress, and
each category whose keyword list matches the lowercased sentence contributes
exactly one phrase, tagged with that category and its first matching keyword
in list order — so a sentence contributes at most three phrases (at most one
per category, not at most one overall), and a sentence matching several
categories yields one phrase per matching category. -/
theorem phrase_extraction_per_category (sentences : List (List Char))
    (s : List Char) (c : String) :
    find_concerning_phrases sentences = sentences.flatMap sentencePhrases ∧
    sentencePhrases s = categoryPhrases "depression" s ++
      categoryPhrases "anxiety" s ++ categoryPhrases "stress" s ∧
    (sentencePhrases s).length ≤ 3 ∧
    ((sentencePhrases s).filter (fun p => p.type == c)).length ≤ 1 ∧
    (∀ p ∈ sentencePhrases s,
      (p.type = "depression" ∨ p.type = "anxiety" ∨ p.type = "stress") ∧
      p.phrase = strip s ∧
      firstHit (keywords_for p.type) (lower s) = some p.keyword) ∧
    ((∃ p ∈ sentencePhrases s, p.type = "depression") ↔
      ∃ k ∈ depression_keywords, k <:+: lower s) ∧
    ((∃ p ∈ sentencePhrases s, p.type = "anxiety") ↔
      ∃ k ∈ anxiety_keywords, k <:+: lower s) ∧
    ((∃ p ∈ sentencePhrases s, p.type = "stress") ↔
      ∃ k ∈ stress_keywords, k <:+: lower s) := by
  refine ⟨rfl, rfl, ?_, sentencePhrases_filter_le_one c s, ?_, ?_, ?_, ?_⟩
  · unfold sentencePhrases
    rw [List.length_append, List.length_append]
    have h1 := categoryPhrases_length "depression" s
    have h2 := categoryPhrases_length "anxiety" s
    have h3 := categoryPhrases_length "stress" s
    omega
  · intro p hp
    rcases sentencePhrases_mem hp with h | h | h <;>
      obtain ⟨htp, hph, hfh, -, -⟩ := categoryPhrases_mem h
    · exact ⟨Or.inl htp, hph, by rw [htp]; exact hfh⟩
    · exact ⟨Or.inr (Or.inl htp), hph, by rw [htp]; exact hfh⟩
    · exact ⟨Or.inr (Or.inr htp), hph, by rw [htp]; exact hfh⟩
  · rw [sentencePhrases_exists_type "depression" s (Or.inl rfl),
      keywords_for_depression]
  · rw [sentencePhrases_exists_type "anxiety" s (Or.inr (Or.inl rfl)),
      keywords_for_anxiety]
  · rw [sentencePhrases_exists_type "stress" s (Or.inr (Or.inr rfl)),
      keywords_for_stress]

/-- C1 witness: on the sentence `"i feel sad and anxious"` a depression
phrase exists, and the per-sentence phrase count is bounded by three. -/
theorem phrase_extraction_per_category_witness :
    (∃ p ∈ sentencePhrases "i feel sad and anxious".toList,
      p.type = "depression") ∧
    (sentencePhrases "i feel sad and anxious".toList).length ≤ 3 :=
  ⟨(phrase_extraction_per_category [] "i feel sad and anxious".toList
      "depression").2.2.2.2.2.1.mpr ⟨"sad".toList, by decide, by decide⟩,
   (phrase_extraction_per_category [] "i feel sad and anxious".toList
      "depression").2.2.1⟩

/-- C8: no phrase the extractor emits carries the positive category — every
emitted phrase is tagged depression, anxiety or stress; positive keywords
are never extracted as phrases. -/
theorem no_positive_phrase (sentences : List (List Char))
    (p : ConcerningPhrase) (h : p ∈ find_concerning_phrases sentences) :
    p.type ≠ "positive" ∧
    (p.type = "depression" ∨ p.type = "anxiety" ∨ p.type = "stress") := by
  rw [find_concerning_phrases, List.mem_flatMap] at h
  obtain ⟨s, -, hp⟩ := h
  rcases sentencePhrases_mem hp with hcp | hcp | hcp <;>
    have ht := (categoryPhrases_mem hcp).1
  · exact ⟨by rw [ht]; decide, Or.inl ht⟩
  · exact ⟨by rw [ht]; decide, Or.inr (Or.inl ht)⟩
  · exact ⟨by rw [ht]; decide, Or.inr (Or.inr ht)⟩

/-- C8 witness: the phrase extracted from `"i am sad"` is not positive. -/
theorem no_positive_phrase_witness :
    (⟨"i am sad".toList, "depression", "sad".toList⟩ :
      ConcerningPhrase).type ≠ "positive" :=
  (no_positive_phrase ["i am sad".toList]
    ⟨"i am sad".toList, "depression", "sad".toList⟩ (by decide)).1

/-! ## C9: the analysis depends on the input only through its lowercasing -/

/-- C9: two inputs equal after lowercasing (analyzed with the same primary
tokenizer, any sentence tokenizers and any sentiment results) receive
identical keyword counts, identical tokenization (hence word counts),
identical category scores and severity bands, identical overall score and
the identical overall assessment string. -/
theorem analysis_depends_on_lowercase
    (prim : List Char → Option (List (List Char) × List (List Char)))
    (sentTok1 sentTok2 : List Char → List (List Char))
    (sent1 sent2 : Option SentimentScores) (t1 t2 : List Char)
    (r1 r2 : AnalysisRecord) (hL : lower t1 = lower t2)
    (h1 : analyze_text prim sentTok1 sent1 t1 = some r1)
    (h2 : analyze_text prim sentTok2 sent2 t2 = some r2) :
    r1.depression.count = r2.depression.count ∧
    r1.anxiety.count = r2.anxiety.count ∧
    r1.stress.count = r2.stress.count ∧
    r1.positive.count = r2.positive.count ∧
    safe_tokenize prim t1 = safe_tokenize prim t2 ∧
    r1.depression.score = r2.depression.score ∧
    r1.anxiety.score = r2.anxiety.score ∧
    r1.stress.score = r2.stress.score ∧
    r1.positive.score = r2.positive.score ∧
    r1.depression.severity = r2.depression.severity ∧
    r1.anxiety.severity = r2.anxiety.severity ∧
    r1.stress.severity = r2.stress.severity ∧
    r1.positive.severity = r2.positive.severity ∧
    r1.overall_score = r2.overall_score ∧
    r1.overall_assessment = r2.overall_assessment := by
  obtain ⟨-, rfl⟩ := analyze_text_eq_some.mp h1
  obtain ⟨-, rfl⟩ := analyze_text_eq_some.mp h2
  refine ⟨?_, ?_, ?_, ?_, ?_, ?_, ?_, ?_, ?_, ?_, ?_, ?_, ?_, ?_, ?_⟩ <;>
    simp only [kwCount, safe_tokenize, hL]

/-- C9 witness: `"Sad"` and `"sAD"` agree after lowercasing and their
analyses agree on all scoring fields (their sentence tokenizers even
differ, so their phrase lists differ). -/
theorem analysis_depends_on_lowercase_witness :
    sadRecordUpper.depression.count = sadRecordSAD.depression.count ∧
    sadRecordUpper.anxiety.count = sadRecordSAD.anxiety.count ∧
    sadRecordUpper.stress.count = sadRecordSAD.stress.count ∧
    sadRecordUpper.positive.count = sadRecordSAD.positive.count ∧
    safe_tokenize primNone "Sad".toList = safe_tokenize primNone "sAD".toList ∧
    sadRecordUpper.depression.score = sadRecordSAD.depression.score ∧
    sadRecordUpper.anxiety.score = sadRecordSAD.anxiety.score ∧
    sadRecordUpper.stress.score = sadRecordSAD.stress.score ∧
    sadRecordUpper.positive.score = sadRecordSAD.positive.score ∧
    sadRecordUpper.depression.severity = sadRecordSAD.depression.severity ∧
    sadRecordUpper.anxiety.severity = sadRecordSAD.anxiety.severity ∧
    sadRecordUpper.stress.severity = sadRecordSAD.stress.severity ∧
    sadRecordUpper.positive.severity = sadRecordSAD.positive.severity ∧
    sadRecordUpper.overall_score = sadRecordSAD.overall_score ∧
    sadRecordUpper.overall_assessment = sadRecordSAD.overall_assessment :=
  analysis_depends_on_lowercase primNone sentTokNil sentTokSelf none none
    "Sad".toList "sAD".toList sadRecordUpper sadRecordSAD (by decide)
    (by decide) (by decide)

end MentalHealth
